import Mathlib

/-!
Shallow embedding of the call-orchestration core of the dottie-ai repository
(src/lib/services/calls/call-service.ts, twilio/vapi providers, ai-insights.ts).

Conventions of the embedding:
* Instants and naive wall-clock stamps are `Int` minutes.  `date-fns`'s
  `isBefore a b` is the strict comparison `a < b`; `addMinutes` is addition.
  `date-fns-tz`'s `zonedTimeToUtc` subtracts the zone's UTC offset from the
  naive wall-clock value (America/New_York on an EDT date has offset -240).
* The Prisma store is explicit state: lists of rows threaded through each
  operation.  `create` appends a row, `update` maps over rows matching the key.
* Vendor network behaviour is an environment (`ProviderEnv`) of response
  functions returning `Except String _`; a thrown provider error is `.error`.
  The service's `try/catch { console.error; throw error }` blocks rethrow the
  error unchanged, so they are the identity on the `Except` value.
-/

inductive ProviderType
  | twilio
  | vapi
deriving DecidableEq, Repr

/-- Rendering of a provider tag as stored in the database
(`options.provider || 'twilio'` stores one of these two strings). -/
def ProviderType.tag : ProviderType → String
  | .twilio => "twilio"
  | .vapi => "vapi"

/-- Timezone, modelled by its UTC offset in minutes (local = UTC + offset). -/
structure Timezone where
  utcOffsetMinutes : Int
deriving DecidableEq, Repr

/-- date-fns-tz `zonedTimeToUtc`: interpret the naive wall-clock stamp in the
given zone and return the UTC instant. -/
def zonedTimeToUtc (localTime : Int) (tz : Timezone) : Int :=
  localTime - tz.utcOffsetMinutes

/-- date-fns `isBefore`: strict less-than on instants. -/
def isBefore (a b : Int) : Bool :=
  decide (a < b)

/-- date-fns `addMinutes`. -/
def addMinutes (t m : Int) : Int :=
  t + m

structure ReminderRule where
  enabled : Bool
  minutesBefore : Int
  method : String
deriving DecidableEq, Repr

structure Recurrence where
  frequency : String
  interval : Int
  endDate : Option Int
  daysOfWeek : Option (List Nat)
deriving DecidableEq, Repr

/-- CallOptions from types.ts (fields the orchestrator reads). -/
structure CallOptions where
  toNumber : String
  fromNumber : String
  recordingEnabled : Option Bool := none
  transcriptionEnabled : Option Bool := none
  provider : Option ProviderType := none
  callbackUrl : Option String := none
deriving DecidableEq, Repr

/-- ScheduledCallOptions extends CallOptions. -/
structure ScheduledCallOptions extends CallOptions where
  scheduledTime : Int
  timezone : Timezone
  recurrence : Option Recurrence := none
  reminder : Option ReminderRule := none
deriving DecidableEq, Repr

structure ConferenceOptions where
  name : String
  participants : List String
  fromNumber : String
  moderator : Option String := none
  maxParticipants : Option Int := none
  recordingEnabled : Option Bool := none
  transcriptionEnabled : Option Bool := none
  provider : Option ProviderType := none
  waitingRoom : Option Bool := none
  muteOnEntry : Option Bool := none
deriving DecidableEq, Repr

/-- Opaque analytics payload returned by a vendor (treated as a blob). -/
structure CallAnalytics where
  duration : Int
deriving DecidableEq, Repr

/-- A persisted Call row (prisma.call). -/
structure CallRow where
  id : String
  userId : String
  toNumber : String
  fromNumber : String
  provider : ProviderType
  recordingEnabled : Option Bool
  transcriptionEnabled : Option Bool
  status : String
  recordingUrl : Option String := none
  transcription : Option String := none
  analytics : Option CallAnalytics := none
deriving DecidableEq, Repr

/-- A persisted ScheduledCall row (prisma.scheduledCall). -/
structure ScheduledCallRow where
  id : String
  userId : String
  toNumber : String
  fromNumber : String
  scheduledTime : Int
  timezone : Timezone
  recurrence : Option Recurrence
  reminder : Option ReminderRule
  provider : ProviderType
  status : String
deriving DecidableEq, Repr

/-- A persisted Reminder row (prisma.reminder). -/
structure ReminderRow where
  scheduledCallId : String
  scheduledTime : Int
  method : String
  status : String
deriving DecidableEq, Repr

/-- Store state touched by scheduleCall. -/
structure SchedDB where
  scheduledCalls : List ScheduledCallRow
  reminders : List ReminderRow
deriving DecidableEq, Repr

/-- A persisted Conference row (prisma.conference). -/
structure ConferenceRow where
  id : String
  userId : String
  name : String
  status : String
  provider : ProviderType
  maxParticipants : Option Int
  recordingEnabled : Option Bool
  transcriptionEnabled : Option Bool
  waitingRoom : Option Bool
  muteOnEntry : Option Bool
  endTime : Option Int := none
deriving DecidableEq, Repr

/-- A persisted ConferenceParticipant row (prisma.conferenceParticipant).
Rows created through the nested `participants.create` of createConference get
a store-generated id, modelled as `none`; rows created by
addParticipantToConference carry the adapter-assigned id. -/
structure ConferenceParticipantRow where
  id : Option String
  conferenceId : String
  phoneNumber : String
  status : String
  muted : Bool
  leftAt : Option Int := none
deriving DecidableEq, Repr

/-- Store state touched by the conference operations. -/
structure ConfDB where
  conferences : List ConferenceRow
  participants : List ConferenceParticipantRow
deriving DecidableEq, Repr

/-- Vendor-side behaviour of the provider adapters: each field is the response
of the corresponding adapter method (`.error` models a thrown provider error,
which the adapters rethrow unchanged).  `makeCallResult` is indexed by the
adapter actually invoked.  The `supports...` flags model presence of the
optional capability methods on the adapter object. -/
structure ProviderEnv where
  makeCallResult : ProviderType → CallOptions → Except String String
  supportsScheduling : Bool
  scheduleCallResult : ScheduledCallOptions → Except String String
  supportsConference : Bool
  createConferenceResult : ConferenceOptions → Except String String
  addParticipantResult : String → String → Except String String
  removeParticipantResult : String → String → Except String Unit
  updateStatusResult : String → String → Except String Unit
  recordingResult : String → String → Except String Unit
  transcriptionResult : String → String → Except String Unit
  supportsAnalytics : Bool
  analyticsResult : String → Except String CallAnalytics

/-- Orchestrator state: owning user and the adapter chosen at construction. -/
structure CallService where
  userId : String
  provider : ProviderType
deriving DecidableEq, Repr

namespace CallService

/-- createProvider: the switch on the provider tag returns the adapter for
that tag (an adapter instance is identified by its tag in this model). -/
def createProvider (t : ProviderType) : ProviderType :=
  t

/-- The constructor `new CallService(userId, providerType = 'twilio')`. -/
def mkService (userId : String) (providerType : ProviderType := .twilio) : CallService :=
  { userId := userId, provider := createProvider providerType }

/-- saveCall: the row written by prisma.call.create on a successful call. -/
def saveCall (svc : CallService) (callId : String) (options : CallOptions) : CallRow :=
  { id := callId
    userId := svc.userId
    toNumber := options.toNumber
    fromNumber := options.fromNumber
    provider := options.provider.getD .twilio
    recordingEnabled := options.recordingEnabled
    transcriptionEnabled := options.transcriptionEnabled
    status := "queued" }

/-- Result of makeCall: which adapter's makeCall was invoked, the returned or
thrown value, and the resulting Call table. -/
structure MakeCallResult where
  invoked : ProviderType
  result : Except String String
  db : List CallRow
deriving Repr

/-- makeCall: invoke this.provider.makeCall, then persist via saveCall; the
catch block rethrows the adapter error unchanged. -/
def makeCall (svc : CallService) (env : ProviderEnv) (options : CallOptions)
    (db : List CallRow) : MakeCallResult :=
  match env.makeCallResult svc.provider options with
  | .ok callId =>
      { invoked := svc.provider
        result := .ok callId
        db := db ++ [svc.saveCall callId options] }
  | .error e =>
      { invoked := svc.provider
        result := .error e
        db := db }

/-- scheduleReminder: guard on reminder.enabled, then persist a Reminder whose
fire time is `addMinutes(options.scheduledTime, -minutesBefore)` — computed
from the raw `scheduledTime`, not from the UTC-converted instant. -/
def scheduleReminder (callId : String) (options : ScheduledCallOptions)
    (db : SchedDB) : SchedDB :=
  match options.reminder with
  | none => db
  | some r =>
      if r.enabled then
        { db with reminders := db.reminders ++
            [{ scheduledCallId := callId
               scheduledTime := addMinutes options.scheduledTime (-r.minutesBefore)
               method := r.method
               status := "pending" }] }
      else db

/-- scheduleCall: capability check, UTC conversion, strict past check via
`isBefore`, adapter call, ScheduledCall persistence, optional reminder. -/
def scheduleCall (svc : CallService) (env : ProviderEnv) (now : Int)
    (options : ScheduledCallOptions) (db : SchedDB) :
    Except String String × SchedDB :=
  if env.supportsScheduling = false then
    (.error "Provider does not support call scheduling", db)
  else
    let utcScheduledTime := zonedTimeToUtc options.scheduledTime options.timezone
    if isBefore utcScheduledTime now then
      (.error "Cannot schedule call in the past", db)
    else
      match env.scheduleCallResult options with
      | .error e => (.error e, db)
      | .ok callId =>
          let db1 : SchedDB :=
            { db with scheduledCalls := db.scheduledCalls ++
                [{ id := callId
                   userId := svc.userId
                   toNumber := options.toNumber
                   fromNumber := options.fromNumber
                   scheduledTime := utcScheduledTime
                   timezone := options.timezone
                   recurrence := options.recurrence
                   reminder := options.reminder
                   provider := options.provider.getD .twilio
                   status := "scheduled" }] }
          let db2 :=
            if (options.reminder.map (fun r => r.enabled)).getD false then
              scheduleReminder callId options db1
            else db1
          (.ok callId, db2)

/-- The sequential participant fan-out loop of createConference: invoke the
adapter's addParticipantToConference for each participant in input-list order,
stopping at (and rethrowing) the first failure.  The second component is the
trace of participants for whom an adapter call was attempted, in order. -/
def fanOutAdd (env : ProviderEnv) (conferenceId : String) :
    List String → Except String Unit × List String
  | [] => (.ok (), [])
  | p :: rest =>
      match env.addParticipantResult conferenceId p with
      | .error e => (.error e, [p])
      | .ok _ =>
          let x := fanOutAdd env conferenceId rest
          (x.1, p :: x.2)

/-- createConference: capability check; adapter createConference; persist one
Conference row with status `scheduled` and a nested ConferenceParticipant row
per requested phone number in status `invited`; then fan out
addParticipantToConference sequentially.  A fan-out failure is rethrown by the
catch block, with the already-persisted rows left in place (no transaction).
The last component is the trace of attempted adapter participant-adds. -/
def createConference (svc : CallService) (env : ProviderEnv)
    (options : ConferenceOptions) (db : ConfDB) :
    Except String String × ConfDB × List String :=
  if env.supportsConference = false then
    (.error "Provider does not support conference calls", db, [])
  else
    match env.createConferenceResult options with
    | .error e => (.error e, db, [])
    | .ok conferenceId =>
        let db1 : ConfDB :=
          { conferences := db.conferences ++
              [{ id := conferenceId
                 userId := svc.userId
                 name := options.name
                 status := "scheduled"
                 provider := options.provider.getD .twilio
                 maxParticipants := options.maxParticipants
                 recordingEnabled := options.recordingEnabled
                 transcriptionEnabled := options.transcriptionEnabled
                 waitingRoom := options.waitingRoom
                 muteOnEntry := options.muteOnEntry }]
            participants := db.participants ++
              options.participants.map (fun phoneNumber =>
                { id := none
                  conferenceId := conferenceId
                  phoneNumber := phoneNumber
                  status := "invited"
                  muted := options.muteOnEntry.getD false }) }
        let fan := fanOutAdd env conferenceId options.participants
        match fan.1 with
        | .ok _ => (.ok conferenceId, db1, fan.2)
        | .error e => (.error e, db1, fan.2)

/-- addParticipantToConference: capability check; adapter call returning the
participant id; persist a ConferenceParticipant row in status `invited`. -/
def addParticipantToConference (_svc : CallService) (env : ProviderEnv)
    (conferenceId participant : String) (db : List ConferenceParticipantRow) :
    Except String Unit × List ConferenceParticipantRow :=
  if env.supportsConference = false then
    (.error "Provider does not support conference calls", db)
  else
    match env.addParticipantResult conferenceId participant with
    | .error e => (.error e, db)
    | .ok participantId =>
        (.ok (), db ++
          [{ id := some participantId
             conferenceId := conferenceId
             phoneNumber := participant
             status := "invited"
             muted := false }])

/-- removeParticipantFromConference: capability check; adapter call; then
prisma.conferenceParticipant.update sets status `disconnected` and leftAt on
the row with the given id — the row is updated, never deleted. -/
def removeParticipantFromConference (_svc : CallService) (env : ProviderEnv)
    (conferenceId participantId : String) (now : Int)
    (db : List ConferenceParticipantRow) :
    Except String Unit × List ConferenceParticipantRow :=
  if env.supportsConference = false then
    (.error "Provider does not support conference calls", db)
  else
    match env.removeParticipantResult conferenceId participantId with
    | .error e => (.error e, db)
    | .ok _ =>
        (.ok (), db.map (fun r =>
          if r.id = some participantId then
            { r with status := "disconnected", leftAt := some now }
          else r))

/-- updateCallRecord: prisma.call.update on the row with the given id. -/
def updateCallRecord (callId : String) (f : CallRow → CallRow)
    (db : List CallRow) : List CallRow :=
  db.map (fun r => if r.id = callId then f r else r)

/-- updateCallStatus: forward to the adapter, then update the persisted row;
no catch block, so an adapter error propagates unchanged. -/
def updateCallStatus (_svc : CallService) (env : ProviderEnv)
    (callId status : String) (db : List CallRow) :
    Except String Unit × List CallRow :=
  match env.updateStatusResult callId status with
  | .error e => (.error e, db)
  | .ok _ => (.ok (), updateCallRecord callId (fun r => { r with status := status }) db)

/-- handleRecording: forward to the adapter, then update the persisted row;
no catch block, so an adapter error propagates unchanged. -/
def handleRecording (_svc : CallService) (env : ProviderEnv)
    (callId recordingUrl : String) (db : List CallRow) :
    Except String Unit × List CallRow :=
  match env.recordingResult callId recordingUrl with
  | .error e => (.error e, db)
  | .ok _ =>
      (.ok (), updateCallRecord callId
        (fun r => { r with recordingUrl := some recordingUrl }) db)

/-- handleTranscription: forward to the adapter, then update the persisted
row; no catch block, so an adapter error propagates unchanged. -/
def handleTranscription (_svc : CallService) (env : ProviderEnv)
    (callId transcription : String) (db : List CallRow) :
    Except String Unit × List CallRow :=
  match env.transcriptionResult callId transcription with
  | .error e => (.error e, db)
  | .ok _ =>
      (.ok (), updateCallRecord callId
        (fun r => { r with transcription := some transcription }) db)

/-- getCallAnalytics: returns null when the capability is absent; otherwise
forwards to the adapter and updates the row, but its catch block swallows an
adapter error and returns null instead of rethrowing. -/
def getCallAnalytics (_svc : CallService) (env : ProviderEnv)
    (callId : String) (db : List CallRow) :
    Except String (Option CallAnalytics) × List CallRow :=
  if env.supportsAnalytics = false then
    (.ok none, db)
  else
    match env.analyticsResult callId with
    | .error _ => (.ok none, db)
    | .ok analytics =>
        (.ok (some analytics), updateCallRecord callId
          (fun r => { r with analytics := some analytics }) db)

end CallService

namespace TwilioCallProvider

/-- The normalized-to-Twilio status translation table. -/
def statusMap : List (String × String) :=
  [("initiated", "queued"),
   ("ringing", "ringing"),
   ("in-progress", "in-progress"),
   ("completed", "completed"),
   ("failed", "failed"),
   ("busy", "busy"),
   ("no-answer", "no-answer")]

/-- mapStatus: `statusMap[status] || status` — table lookup with unknown
values passed through unchanged. -/
def mapStatus (status : String) : String :=
  ((statusMap.find? (fun p => p.1 = status)).map Prod.snd).getD status

/-- The inverse of the Twilio translation table (vendor value back to the
normalized vocabulary), with unknown values passed through. -/
def invMapStatus (vendorStatus : String) : String :=
  ((statusMap.find? (fun p => p.2 = vendorStatus)).map Prod.fst).getD vendorStatus

end TwilioCallProvider

namespace VAPICallProvider

/-- The normalized-to-VAPI status translation table. -/
def statusMap : List (String × String) :=
  [("initiated", "starting"),
   ("ringing", "ringing"),
   ("in-progress", "in_progress"),
   ("completed", "completed"),
   ("failed", "failed"),
   ("busy", "busy"),
   ("no-answer", "no_answer")]

/-- mapStatus: `statusMap[status] || status` — table lookup with unknown
values passed through unchanged. -/
def mapStatus (status : String) : String :=
  ((statusMap.find? (fun p => p.1 = status)).map Prod.snd).getD status

/-- The inverse of the VAPI translation table (vendor value back to the
normalized vocabulary), with unknown values passed through. -/
def invMapStatus (vendorStatus : String) : String :=
  ((statusMap.find? (fun p => p.2 = vendorStatus)).map Prod.fst).getD vendorStatus

end VAPICallProvider

/-- The seven normalized statuses listed in the translation table. -/
def normalizedStatuses : List String :=
  ["initiated", "ringing", "in-progress", "completed", "failed", "busy", "no-answer"]

/-!
String model for the AI-insights parser: JavaScript strings are lists of
characters, and the handful of string methods the parser uses are defined
below (split on a separator, includes, first-occurrence replace, trim,
toLowerCase).  `replaceFirstL` removes the first occurrence only, matching
JavaScript's `String.prototype.replace` with a string pattern.
-/

/-- Character list of a string literal. -/
def strL (s : String) : List Char :=
  s.data

/-- Does `l` start with `p` (JavaScript `startsWith`)? -/
def startsWithL : List Char → List Char → Bool
  | [], _ => true
  | _ :: _, [] => false
  | p :: ps, c :: cs => if p = c then startsWithL ps cs else false

/-- Does `p` occur as a contiguous substring of `l` (JavaScript `includes`)? -/
def containsL : List Char → List Char → Bool
  | [], p => startsWithL p []
  | c :: t, p => startsWithL p (c :: t) || containsL t p

/-- Remove the first occurrence of `p` from the second argument (JavaScript
`replace(p, '')`); no occurrence leaves the string unchanged. -/
def replaceFirstL (p : List Char) : List Char → List Char
  | [] => []
  | c :: t =>
      if startsWithL p (c :: t) then List.drop p.length (c :: t)
      else c :: replaceFirstL p t

/-- Split on a single separator character (JavaScript `split(sep)` for a
one-character separator).  Always returns at least one piece. -/
def splitOnChar (sep : Char) : List Char → List (List Char)
  | [] => [[]]
  | c :: t =>
      if c = sep then [] :: splitOnChar sep t
      else
        match splitOnChar sep t with
        | [] => [[c]]
        | h :: r => (c :: h) :: r

/-- Split on a blank line, i.e. on the two-character separator of two
newlines (JavaScript `split('\n\n')`), scanning left to right without
overlap. -/
def splitOnNN : List Char → List (List Char)
  | [] => [[]]
  | '\n' :: '\n' :: t => [] :: splitOnNN t
  | c :: t =>
      match splitOnNN t with
      | [] => [[c]]
      | h :: r => (c :: h) :: r

/-- Whitespace recognized by `trim` (the ASCII part of JavaScript's set). -/
def isWS (c : Char) : Bool :=
  c = ' ' || c = '\n' || c = '\t' || c = '\x0d' || c = '\x0b' || c = '\x0c'

/-- JavaScript `trim`: drop whitespace from both ends. -/
def trimL (l : List Char) : List Char :=
  ((l.dropWhile isWS).reverse.dropWhile isWS).reverse

/-- JavaScript `toLowerCase` (ASCII). -/
def toLowerL (l : List Char) : List Char :=
  l.map Char.toLower

namespace AIInsightsService

inductive InsightType
  | improvement
  | success
  | trend
  | anomaly
deriving DecidableEq, Repr

/-- An AIInsight record (ai-insights.ts).  `confidence` is the parser's
placeholder constant, kept as a rational. -/
structure AIInsight where
  type : InsightType
  title : List Char
  description : List Char
  confidence : Rat
  metrics : List (List Char)
  recommendations : List (List Char)
deriving DecidableEq, Repr

/-- The CallInsights record returned by parseAIResponse. -/
structure CallInsights where
  insights : List AIInsight
  summary : List Char
  keyTakeaways : List (List Char)
  actionItems : List (List Char)
deriving DecidableEq, Repr

/-- determineInsightType: keyword match on the lowercased title, defaulting
to `anomaly`. -/
def determineInsightType (title : List Char) : InsightType :=
  if containsL (toLowerL title) (strL "improve") then .improvement
  else if containsL (toLowerL title) (strL "success") then .success
  else if containsL (toLowerL title) (strL "trend") then .trend
  else .anomaly

/-- calculateConfidence: the source returns the placeholder 0.85. -/
def calculateConfidence (_text : List Char) : Rat :=
  85 / 100

/-- extractMetrics: unimplemented stub returning the empty list. -/
def extractMetrics (_text : List Char) : List (List Char) :=
  []

/-- extractRecommendations: first section containing `Recommendations:`, with
the header removed, split into lines, trimmed, blanks dropped. -/
def extractRecommendations (sections : List (List Char)) : List (List Char) :=
  match sections.find? (fun s => containsL s (strL "Recommendations:")) with
  | some recs =>
      ((splitOnChar '\n' (replaceFirstL (strL "Recommendations:") recs)).map
        trimL).filter (fun r => !r.isEmpty)
  | none => []

/-- extractInsights: sections containing `Insight:`, each turned into an
AIInsight whose title is the first line and description the remaining lines. -/
def extractInsights (sections : List (List Char)) : List AIInsight :=
  (sections.filter (fun s => containsL s (strL "Insight:"))).map
    (fun sec =>
      let lines := splitOnChar '\n' sec
      let title := lines.headD []
      let rest := lines.tail
      { type := determineInsightType title
        title := trimL (replaceFirstL (strL "Insight:") title)
        description := trimL (List.intercalate (strL "\n") rest)
        confidence := calculateConfidence sec
        metrics := extractMetrics sec
        recommendations := extractRecommendations [sec] })

/-- extractSummary: first section containing `Summary:`, with the header
removed and the result trimmed; the empty string when no section matches. -/
def extractSummary (sections : List (List Char)) : List Char :=
  match sections.find? (fun s => containsL s (strL "Summary:")) with
  | some s => trimL (replaceFirstL (strL "Summary:") s)
  | none => []

/-- extractKeyTakeaways: first section containing `Key Takeaways:`, header
removed, split into lines, trimmed, blanks dropped; empty when absent. -/
def extractKeyTakeaways (sections : List (List Char)) : List (List Char) :=
  match sections.find? (fun s => containsL s (strL "Key Takeaways:")) with
  | some t =>
      ((splitOnChar '\n' (replaceFirstL (strL "Key Takeaways:") t)).map
        trimL).filter (fun x => !x.isEmpty)
  | none => []

/-- extractActionItems: first section containing `Action Items:`, header
removed, split into lines, trimmed, blanks dropped; empty when absent. -/
def extractActionItems (sections : List (List Char)) : List (List Char) :=
  match sections.find? (fun s => containsL s (strL "Action Items:")) with
  | some a =>
      ((splitOnChar '\n' (replaceFirstL (strL "Action Items:") a)).map
        trimL).filter (fun x => !x.isEmpty)
  | none => []

/-- parseAIResponse: split the reply on blank lines and build the four
fields from the resulting sections. -/
def parseAIResponse (response : List Char) : CallInsights :=
  let sections := splitOnNN response
  { insights := extractInsights sections
    summary := extractSummary sections
    keyTakeaways := extractKeyTakeaways sections
    actionItems := extractActionItems sections }

end AIInsightsService

/-!
Concrete fixtures used by the witness and counterexample theorems.
-/

/-- A vendor environment in which every adapter call succeeds. -/
def envOk : ProviderEnv :=
  { makeCallResult := fun _ _ => .ok "CA123"
    supportsScheduling := true
    scheduleCallResult := fun _ => .ok "SC1"
    supportsConference := true
    createConferenceResult := fun _ => .ok "CF1"
    addParticipantResult := fun _ p => .ok ("P-" ++ p)
    removeParticipantResult := fun _ _ => .ok ()
    updateStatusResult := fun _ _ => .ok ()
    recordingResult := fun _ _ => .ok ()
    transcriptionResult := fun _ _ => .ok ()
    supportsAnalytics := true
    analyticsResult := fun _ => .ok { duration := 300 } }

/-- envOk, except that adding participant "B" to a conference fails. -/
def envB : ProviderEnv :=
  { envOk with addParticipantResult := fun _ p =>
      if p = "B" then .error "could not add B" else .ok ("P-" ++ p) }

/-- envOk, except that fetching analytics fails. -/
def envFail : ProviderEnv :=
  { envOk with analyticsResult := fun _ => .error "provider down" }

def svcTwilio : CallService :=
  CallService.mkService "user-1" .twilio

def svcVapi : CallService :=
  CallService.mkService "user-1" .vapi

def opts1 : CallOptions :=
  { toNumber := "+15550001111", fromNumber := "+15550002222" }

/-- Scheduling options for the spec's example: wall-clock 10:00 (600 minutes)
in a zone at UTC-4 (America/New_York on an EDT date), with a 15-minute email
reminder.  The UTC instant is 14:00 (840 minutes). -/
def schedOpts0 : ScheduledCallOptions :=
  { toNumber := "+15550001111", fromNumber := "+15550002222"
    scheduledTime := 600
    timezone := { utcOffsetMinutes := -240 }
    reminder := some { enabled := true, minutesBefore := 15, method := "email" } }

def confOpts0 : ConferenceOptions :=
  { name := "Team Meeting", participants := ["A", "B", "C"]
    fromNumber := "+15550002222" }

/-- C1: for every valid (to, from) pair, makeCall persists exactly one Call
row with status `queued` if and only if the adapter's makeCall succeeds; when
the adapter fails, zero rows are persisted and the adapter's error propagates
unchanged to the caller. -/
theorem C1_makeCall_persists_queued_iff_adapter_ok
    (svc : CallService) (env : ProviderEnv) (options : CallOptions)
    (db : List CallRow) :
    (∀ callId, env.makeCallResult svc.provider options = .ok callId →
      (svc.makeCall env options db).result = .ok callId ∧
      (svc.makeCall env options db).db = db ++ [svc.saveCall callId options] ∧
      (svc.saveCall callId options).status = "queued") ∧
    (∀ e, env.makeCallResult svc.provider options = .error e →
      (svc.makeCall env options db).result = .error e ∧
      (svc.makeCall env options db).db = db) := by
  constructor
  · intro callId h
    simp [CallService.makeCall, h, CallService.saveCall]
  · intro e h
    simp [CallService.makeCall, h]

theorem C1_makeCall_witness :
    (svcTwilio.makeCall envOk opts1 []).result = .ok "CA123" ∧
    (svcTwilio.makeCall envOk opts1 []).db = [svcTwilio.saveCall "CA123" opts1] ∧
    (svcTwilio.saveCall "CA123" opts1).status = "queued" :=
  (C1_makeCall_persists_queued_iff_adapter_ok svcTwilio envOk opts1 []).1 "CA123" rfl

/-- C5 counterexample: a CallService constructed with provider `vapi`, given
options with no explicit provider, invokes the vapi adapter but persists the
provider tag `twilio` — the adapter used and the persisted tag disagree. -/
theorem C5_provider_tag_mismatch_counterexample :
    svcVapi.provider = ProviderType.vapi ∧
    opts1.provider = none ∧
    (svcVapi.makeCall envOk opts1 []).invoked = ProviderType.vapi ∧
    ((svcVapi.makeCall envOk opts1 []).db.map (fun r => r.provider)) =
      [ProviderType.twilio] ∧
    ProviderType.vapi ≠ ProviderType.twilio := by
  refine ⟨rfl, rfl, rfl, rfl, by decide⟩

/-- C5 (amended): the adapter whose makeCall is invoked is always the one
selected at construction, regardless of any provider named in the options;
the persisted provider tag is the options' provider defaulting to `twilio`.
The two therefore agree only when the options name the constructor's
provider, or name none and the service was constructed with `twilio`. -/
theorem C5_makeCall_invoked_adapter_and_persisted_tag
    (svc : CallService) (env : ProviderEnv) (options : CallOptions)
    (db : List CallRow) (callId : String)
    (h : env.makeCallResult svc.provider options = .ok callId) :
    (svc.makeCall env options db).invoked = svc.provider ∧
    (svc.makeCall env options db).db = db ++ [svc.saveCall callId options] ∧
    (svc.saveCall callId options).provider = options.provider.getD .twilio := by
  simp [CallService.makeCall, h, CallService.saveCall]

theorem C5_makeCall_invoked_adapter_witness :
    (svcVapi.makeCall envOk opts1 []).invoked = svcVapi.provider ∧
    (svcVapi.makeCall envOk opts1 []).db = [svcVapi.saveCall "CA123" opts1] ∧
    (svcVapi.saveCall "CA123" opts1).provider = opts1.provider.getD .twilio :=
  C5_makeCall_invoked_adapter_and_persisted_tag svcVapi envOk opts1 [] "CA123" rfl

/-- C2 counterexample: with the scheduled wall-clock time converting to a UTC
instant exactly equal to the current time (840 = 840), scheduleCall does not
fail — `isBefore` is strict — and it persists a ScheduledCall, contradicting
the claim that a UTC instant ≤ now is rejected. -/
theorem C2_schedule_at_now_accepted_counterexample :
    zonedTimeToUtc schedOpts0.scheduledTime schedOpts0.timezone = 840 ∧
    (svcTwilio.scheduleCall envOk 840 schedOpts0 ⟨[], []⟩).1 = .ok "SC1" ∧
    ((svcTwilio.scheduleCall envOk 840 schedOpts0 ⟨[], []⟩).2.scheduledCalls.map
      (fun r => r.status)) = ["scheduled"] := by
  refine ⟨rfl, rfl, rfl⟩

/-- C2 (amended): scheduleCall converts (scheduledTime, timezone) to a UTC
instant and fails with a validation error — persisting neither a
ScheduledCall nor a Reminder — exactly when that instant is strictly less
than the current time; a scheduled time whose UTC instant equals now passes
validation and, when the adapter succeeds, is persisted. -/
theorem C2_scheduleCall_rejects_strict_past
    (svc : CallService) (env : ProviderEnv) (now : Int)
    (options : ScheduledCallOptions) (db : SchedDB)
    (hsupp : env.supportsScheduling = true) :
    (zonedTimeToUtc options.scheduledTime options.timezone < now →
      svc.scheduleCall env now options db =
        (.error "Cannot schedule call in the past", db)) ∧
    (zonedTimeToUtc options.scheduledTime options.timezone = now →
      ∀ callId, env.scheduleCallResult options = .ok callId →
        (svc.scheduleCall env now options db).1 = .ok callId ∧
        (svc.scheduleCall env now options db).2.scheduledCalls.length =
          db.scheduledCalls.length + 1) := by
  constructor
  · intro hlt
    simp [CallService.scheduleCall, hsupp, isBefore, hlt]
  · intro heq callId hok
    have hnotlt : ¬ zonedTimeToUtc options.scheduledTime options.timezone < now := by
      omega
    simp only [CallService.scheduleCall, hsupp, Bool.true_eq_false, if_false,
      isBefore, hnotlt, decide_eq_false, Bool.false_eq_true, hok]
    constructor
    · rfl
    · rcases hrem : options.reminder with _ | r
      · simp [hrem, CallService.scheduleReminder]
      · rcases he : r.enabled
        · simp [hrem, he, CallService.scheduleReminder]
        · simp [hrem, he, CallService.scheduleReminder]

theorem C2_scheduleCall_rejects_strict_past_witness :
    (svcTwilio.scheduleCall envOk 1000 schedOpts0 ⟨[], []⟩ =
      (.error "Cannot schedule call in the past", ⟨[], []⟩)) ∧
    ((svcTwilio.scheduleCall envOk 840 schedOpts0 ⟨[], []⟩).1 = .ok "SC1" ∧
      (svcTwilio.scheduleCall envOk 840 schedOpts0 ⟨[], []⟩).2.scheduledCalls.length =
        ([] : List ScheduledCallRow).length + 1) :=
  ⟨(C2_scheduleCall_rejects_strict_past svcTwilio envOk 1000 schedOpts0 ⟨[], []⟩ rfl).1
      (by decide),
   (C2_scheduleCall_rejects_strict_past svcTwilio envOk 840 schedOpts0 ⟨[], []⟩ rfl).2
      (by decide) "SC1" rfl⟩

/-- C3: the code stores the UTC-converted instant on the ScheduledCall (840,
i.e. 14:00Z for wall-clock 10:00 at UTC-4), but computes the Reminder fire
time from the raw, unconverted scheduledTime: it persists exactly one pending
Reminder with fire time 585 (09:45), which is 255 minutes before the stored
UTC instant instead of the 15 minutes the reminder rule asks for (the spec's
expected fire time is 825, i.e. 13:45Z). -/
theorem C3_reminder_fire_time_uses_unconverted_time :
    ((svcTwilio.scheduleCall envOk 0 schedOpts0 ⟨[], []⟩).2.scheduledCalls.map
      (fun r => r.scheduledTime)) = [840] ∧
    (svcTwilio.scheduleCall envOk 0 schedOpts0 ⟨[], []⟩).2.reminders =
      [{ scheduledCallId := "SC1", scheduledTime := 585,
         method := "email", status := "pending" }] ∧
    (585 : Int) ≠ 840 - 15 := by
  refine ⟨rfl, rfl, by decide⟩

/-- C4: for every entry of the normalized-status translation table,
translating the normalized status to the vendor vocabulary (Twilio or VAPI
mapStatus) and back through the inverse of that table recovers the original
value; equivalently, each adapter's table is injective on its seven entries. -/
theorem C4_mapStatus_round_trip (s : String) (hs : s ∈ normalizedStatuses) :
    TwilioCallProvider.invMapStatus (TwilioCallProvider.mapStatus s) = s ∧
    VAPICallProvider.invMapStatus (VAPICallProvider.mapStatus s) = s ∧
    ∀ t ∈ normalizedStatuses,
      (TwilioCallProvider.mapStatus s = TwilioCallProvider.mapStatus t → s = t) ∧
      (VAPICallProvider.mapStatus s = VAPICallProvider.mapStatus t → s = t) := by
  fin_cases hs <;> decide

theorem C4_mapStatus_round_trip_witness :
    "initiated" ∈ normalizedStatuses ∧
    (TwilioCallProvider.invMapStatus (TwilioCallProvider.mapStatus "initiated") =
      "initiated" ∧
     VAPICallProvider.invMapStatus (VAPICallProvider.mapStatus "initiated") =
      "initiated" ∧
     ∀ t ∈ normalizedStatuses,
      (TwilioCallProvider.mapStatus "initiated" = TwilioCallProvider.mapStatus t →
        "initiated" = t) ∧
      (VAPICallProvider.mapStatus "initiated" = VAPICallProvider.mapStatus t →
        "initiated" = t)) :=
  ⟨by decide, C4_mapStatus_round_trip "initiated" (by decide)⟩

/-- C6: createConference with participants [A, B, C] persists one Conference
with status `scheduled` and one ConferenceParticipant per requested phone
number in status `invited`, then fans out the adapter's
addParticipantToConference sequentially in input-list order; when the adapter
call for B fails, the attempted-call trace is exactly [A, B] (A before B, C
never attempted), the persisted rows are left in place (no rollback), and the
error propagates to the caller. -/
theorem C6_createConference_fanout_partial_failure
    (svc : CallService) (env : ProviderEnv) (options : ConferenceOptions)
    (db : ConfDB) (A B C cid idA e : String)
    (hparts : options.participants = [A, B, C])
    (hsupp : env.supportsConference = true)
    (hcreate : env.createConferenceResult options = .ok cid)
    (hA : env.addParticipantResult cid A = .ok idA)
    (hB : env.addParticipantResult cid B = .error e) :
    (svc.createConference env options db).1 = .error e ∧
    (svc.createConference env options db).2.2 = [A, B] ∧
    (svc.createConference env options db).2.1.conferences =
      db.conferences ++
        [{ id := cid, userId := svc.userId, name := options.name,
           status := "scheduled", provider := options.provider.getD .twilio,
           maxParticipants := options.maxParticipants,
           recordingEnabled := options.recordingEnabled,
           transcriptionEnabled := options.transcriptionEnabled,
           waitingRoom := options.waitingRoom,
           muteOnEntry := options.muteOnEntry }] ∧
    (svc.createConference env options db).2.1.participants =
      db.participants ++
        [{ id := none, conferenceId := cid, phoneNumber := A,
           status := "invited", muted := options.muteOnEntry.getD false },
         { id := none, conferenceId := cid, phoneNumber := B,
           status := "invited", muted := options.muteOnEntry.getD false },
         { id := none, conferenceId := cid, phoneNumber := C,
           status := "invited", muted := options.muteOnEntry.getD false }] := by
  simp [CallService.createConference, hsupp, hcreate, hparts,
    CallService.fanOutAdd, hA, hB]

theorem C6_createConference_fanout_witness :
    (svcTwilio.createConference envB confOpts0 ⟨[], []⟩).1 = .error "could not add B" ∧
    (svcTwilio.createConference envB confOpts0 ⟨[], []⟩).2.2 = ["A", "B"] ∧
    (svcTwilio.createConference envB confOpts0 ⟨[], []⟩).2.1.conferences =
      [{ id := "CF1", userId := svcTwilio.userId, name := confOpts0.name,
         status := "scheduled", provider := confOpts0.provider.getD .twilio,
         maxParticipants := confOpts0.maxParticipants,
         recordingEnabled := confOpts0.recordingEnabled,
         transcriptionEnabled := confOpts0.transcriptionEnabled,
         waitingRoom := confOpts0.waitingRoom,
         muteOnEntry := confOpts0.muteOnEntry }] ∧
    (svcTwilio.createConference envB confOpts0 ⟨[], []⟩).2.1.participants =
      [{ id := none, conferenceId := "CF1", phoneNumber := "A",
         status := "invited", muted := confOpts0.muteOnEntry.getD false },
       { id := none, conferenceId := "CF1", phoneNumber := "B",
         status := "invited", muted := confOpts0.muteOnEntry.getD false },
       { id := none, conferenceId := "CF1", phoneNumber := "C",
         status := "invited", muted := confOpts0.muteOnEntry.getD false }] :=
  C6_createConference_fanout_partial_failure svcTwilio envB confOpts0 ⟨[], []⟩
    "A" "B" "C" "CF1" "P-A" "could not add B" rfl rfl rfl rfl rfl

/-- C7: addParticipantToConference followed by removeParticipantFromConference
leaves the participant row present — the table keeps its size, nothing is
deleted — with status `disconnected` and a non-null leave timestamp. -/
theorem C7_add_then_remove_participant_disconnected
    (svc : CallService) (env : ProviderEnv) (conferenceId participant pid : String)
    (now : Int) (db : List ConferenceParticipantRow)
    (hsupp : env.supportsConference = true)
    (hadd : env.addParticipantResult conferenceId participant = .ok pid)
    (hrem : env.removeParticipantResult conferenceId pid = .ok ()) :
    ((svc.removeParticipantFromConference env conferenceId pid now
        (svc.addParticipantToConference env conferenceId participant db).2).2).length =
      ((svc.addParticipantToConference env conferenceId participant db).2).length ∧
    ∃ r ∈ (svc.removeParticipantFromConference env conferenceId pid now
        (svc.addParticipantToConference env conferenceId participant db).2).2,
      r.id = some pid ∧ r.phoneNumber = participant ∧
      r.status = "disconnected" ∧ r.leftAt = some now ∧ r.leftAt ≠ none := by
  have h1 : (svc.addParticipantToConference env conferenceId participant db).2 =
      db ++ [{ id := some pid, conferenceId := conferenceId,
               phoneNumber := participant, status := "invited", muted := false }] := by
    simp [CallService.addParticipantToConference, hsupp, hadd]
  have h2 : (svc.removeParticipantFromConference env conferenceId pid now
      (svc.addParticipantToConference env conferenceId participant db).2).2 =
      ((svc.addParticipantToConference env conferenceId participant db).2).map
        (fun r => if r.id = some pid then
          { r with status := "disconnected", leftAt := some now } else r) := by
    simp [CallService.removeParticipantFromConference, hsupp, hrem]
  rw [h2, h1]
  constructor
  · simp
  · refine ⟨{ id := some pid, conferenceId := conferenceId, phoneNumber := participant, status := "disconnected", muted := false, leftAt := some now }, ?_, rfl, rfl, rfl, rfl, by simp⟩
    refine List.mem_map.mpr ⟨{ id := some pid, conferenceId := conferenceId, phoneNumber := participant, status := "invited", muted := false, leftAt := none }, by simp, ?_⟩
    simp

theorem C7_add_then_remove_participant_witness :
    ((svcTwilio.removeParticipantFromConference envOk "CF1" "P-A" 900
        (svcTwilio.addParticipantToConference envOk "CF1" "A" []).2).2).length =
      ((svcTwilio.addParticipantToConference envOk "CF1" "A" []).2).length ∧
    ∃ r ∈ (svcTwilio.removeParticipantFromConference envOk "CF1" "P-A" 900
        (svcTwilio.addParticipantToConference envOk "CF1" "A" []).2).2,
      r.id = some "P-A" ∧ r.phoneNumber = "A" ∧
      r.status = "disconnected" ∧ r.leftAt = some 900 ∧ r.leftAt ≠ none :=
  C7_add_then_remove_participant_disconnected svcTwilio envOk "CF1" "A" "P-A"
    900 [] rfl rfl rfl

/-- C8 counterexample: with the analytics capability present and the adapter
call failing, getCallAnalytics does not propagate the error — its catch block
swallows it and returns null with the store untouched, contradicting the
claim that all four operations propagate adapter failures unchanged. -/
theorem C8_getCallAnalytics_swallows_error_counterexample :
    envFail.supportsAnalytics = true ∧
    envFail.analyticsResult "CA123" = .error "provider down" ∧
    svcTwilio.getCallAnalytics envFail "CA123" [] = (.ok none, []) := by
  refine ⟨rfl, rfl, rfl⟩

/-- C8 (amended): updateCallStatus, handleRecording and handleTranscription
forward to the adapter and then update the persisted Call row with the new
field, propagating an adapter failure unchanged with no retry and no
substitute result; getCallAnalytics instead returns null when the capability
is absent, and on adapter failure swallows the error and returns null with no
row update — only on success does it update the row and return the payload. -/
theorem C8_forward_update_and_error_propagation
    (svc : CallService) (env : ProviderEnv) (callId status url text : String)
    (db : List CallRow) :
    (∀ e, env.updateStatusResult callId status = .error e →
      svc.updateCallStatus env callId status db = (.error e, db)) ∧
    (env.updateStatusResult callId status = .ok () →
      svc.updateCallStatus env callId status db =
        (.ok (), CallService.updateCallRecord callId
          (fun r => { r with status := status }) db)) ∧
    (∀ e, env.recordingResult callId url = .error e →
      svc.handleRecording env callId url db = (.error e, db)) ∧
    (env.recordingResult callId url = .ok () →
      svc.handleRecording env callId url db =
        (.ok (), CallService.updateCallRecord callId
          (fun r => { r with recordingUrl := some url }) db)) ∧
    (∀ e, env.transcriptionResult callId text = .error e →
      svc.handleTranscription env callId text db = (.error e, db)) ∧
    (env.transcriptionResult callId text = .ok () →
      svc.handleTranscription env callId text db =
        (.ok (), CallService.updateCallRecord callId
          (fun r => { r with transcription := some text }) db)) ∧
    (env.supportsAnalytics = false →
      svc.getCallAnalytics env callId db = (.ok none, db)) ∧
    (env.supportsAnalytics = true →
      (∀ e, env.analyticsResult callId = .error e →
        svc.getCallAnalytics env callId db = (.ok none, db)) ∧
      (∀ a, env.analyticsResult callId = .ok a →
        svc.getCallAnalytics env callId db =
          (.ok (some a), CallService.updateCallRecord callId
            (fun r => { r with analytics := some a }) db))) := by
  refine ⟨?_, ?_, ?_, ?_, ?_, ?_, ?_, ?_⟩
  · intro e h
    simp [CallService.updateCallStatus, h]
  · intro h
    simp [CallService.updateCallStatus, h]
  · intro e h
    simp [CallService.handleRecording, h]
  · intro h
    simp [CallService.handleRecording, h]
  · intro e h
    simp [CallService.handleTranscription, h]
  · intro h
    simp [CallService.handleTranscription, h]
  · intro h
    simp [CallService.getCallAnalytics, h]
  · intro h
    constructor
    · intro e he
      simp [CallService.getCallAnalytics, h, he]
    · intro a ha
      simp [CallService.getCallAnalytics, h, ha]

theorem C8_forward_update_witness :
    (svcTwilio.updateCallStatus envOk "CA123" "completed" [] =
      (.ok (), CallService.updateCallRecord "CA123"
        (fun r => { r with status := "completed" }) [])) ∧
    (svcTwilio.handleRecording envOk "CA123" "https://rec" [] =
      (.ok (), CallService.updateCallRecord "CA123"
        (fun r => { r with recordingUrl := some "https://rec" }) [])) ∧
    (svcTwilio.handleTranscription envOk "CA123" "hello there" [] =
      (.ok (), CallService.updateCallRecord "CA123"
        (fun r => { r with transcription := some "hello there" }) [])) ∧
    (svcTwilio.getCallAnalytics envFail "CA123" [] = (.ok none, [])) ∧
    (svcTwilio.getCallAnalytics envOk "CA123" [] =
      (.ok (some { duration := 300 }), CallService.updateCallRecord "CA123"
        (fun r => { r with analytics := some { duration := 300 } }) [])) :=
  ⟨(C8_forward_update_and_error_propagation svcTwilio envOk "CA123" "completed"
      "https://rec" "hello there" []).2.1 rfl,
   (C8_forward_update_and_error_propagation svcTwilio envOk "CA123" "completed"
      "https://rec" "hello there" []).2.2.2.1 rfl,
   (C8_forward_update_and_error_propagation svcTwilio envOk "CA123" "completed"
      "https://rec" "hello there" []).2.2.2.2.2.1 rfl,
   ((C8_forward_update_and_error_propagation svcTwilio envFail "CA123" "completed"
      "https://rec" "hello there" []).2.2.2.2.2.2.2 rfl).1 "provider down" rfl,
   ((C8_forward_update_and_error_propagation svcTwilio envOk "CA123" "completed"
      "https://rec" "hello there" []).2.2.2.2.2.2.2 rfl).2 { duration := 300 } rfl⟩

/-!
Lemmas about the string model, used to settle the parser claims.
-/

theorem startsWithL_self_append (p x : List Char) :
    startsWithL p (p ++ x) = true := by
  induction p with
  | nil => rfl
  | cons a q ih => simp [startsWithL, ih]

theorem replaceFirstL_self_append (p x : List Char) :
    replaceFirstL p (p ++ x) = x := by
  cases p with
  | nil =>
    cases x with
    | nil => rfl
    | cons c t => simp [replaceFirstL, startsWithL]
  | cons a q =>
    have h := startsWithL_self_append (a :: q) x
    rw [List.cons_append]
    rw [show (a :: q) ++ x = a :: (q ++ x) from rfl] at h
    simp [replaceFirstL, h]

theorem containsL_of_startsWithL {p l : List Char}
    (h : startsWithL p l = true) : containsL l p = true := by
  cases l with
  | nil => simpa [containsL] using h
  | cons c t => simp [containsL, h]

theorem startsWithL_append_right {p a : List Char}
    (h : startsWithL p a = true) (b : List Char) :
    startsWithL p (a ++ b) = true := by
  induction p generalizing a with
  | nil => rfl
  | cons x q ih =>
    cases a with
    | nil => simp [startsWithL] at h
    | cons c t =>
      by_cases hxc : x = c
      · subst hxc
        simp [startsWithL] at h ⊢
        exact ih h
      · simp [startsWithL, hxc] at h

theorem containsL_append_left {a p : List Char}
    (h : containsL a p = true) (b : List Char) :
    containsL (a ++ b) p = true := by
  induction a with
  | nil =>
    cases p with
    | nil =>
      cases b with
      | nil => rfl
      | cons c t => simp [containsL, startsWithL]
    | cons x q => simp [containsL, startsWithL] at h
  | cons c t ih =>
    rw [List.cons_append]
    simp only [containsL, Bool.or_eq_true] at h ⊢
    rcases h with h | h
    · exact Or.inl (startsWithL_append_right h b)
    · exact Or.inr (ih h)

theorem takeWhile_append_of_all {P : Char → Bool} {l1 : List Char}
    (h : ∀ a ∈ l1, P a = true) (l2 : List Char) :
    (l1 ++ l2).takeWhile P = l1 ++ l2.takeWhile P := by
  induction l1 with
  | nil => simp
  | cons c t ih =>
    have hc : P c = true := h c (by simp)
    rw [List.cons_append, List.takeWhile_cons, hc]
    simp only [if_true]
    rw [ih (fun a ha => h a (by simp [ha]))]
    rfl

theorem splitOnChar_ne_nil (sep : Char) (l : List Char) :
    splitOnChar sep l ≠ [] := by
  cases l with
  | nil => simp [splitOnChar]
  | cons c t =>
    by_cases hc : c = sep
    · simp [splitOnChar, hc]
    · simp only [splitOnChar, hc, if_false]
      cases h : splitOnChar sep t with
      | nil => simp
      | cons hh hr => simp

theorem headD_splitOnChar (sep : Char) (l : List Char) :
    (splitOnChar sep l).headD [] = l.takeWhile (fun c => !(c == sep)) := by
  induction l with
  | nil => rfl
  | cons c t ih =>
    by_cases hc : c = sep
    · subst hc
      simp [splitOnChar, List.takeWhile_cons]
    · simp only [splitOnChar, hc, if_false, List.takeWhile_cons]
      have hbeq : (c == sep) = false := by
        simpa using hc
      rw [hbeq]
      simp only [Bool.not_false, if_true]
      cases h : splitOnChar sep t with
      | nil => exact absurd h (splitOnChar_ne_nil sep t)
      | cons hh hr =>
        rw [h] at ih
        simp at ih
        simp [ih]

/-- Reply used to refute C9 as stated: its blank-line-separated sections do
include `Summary: Great delivery`, a section starting
`Insight: Improvement Needed`, and Key Takeaways / Action Items sections with
content — but an earlier section consisting of the bare header `Summary:`
is the one the parser finds first. -/
def badReply : List Char :=
  strL "Summary:\n\nSummary: Great delivery\n\nInsight: Improvement Needed on pacing\n\nKey Takeaways:\n- Listen\n\nAction Items:\n- Follow up"

/-- A well-formed structured reply used by the C9 witness. -/
def goodReply : List Char :=
  strL "Summary: Good call\n\nInsight: Improvement Needed on pacing\nSlow down\n\nKey Takeaways:\n- Listen more\n\nAction Items:\n- Follow up"

/-- C9 counterexample: this reply satisfies every hypothesis of the claim —
its sections include `Summary: X` with X non-empty, a section starting
`Insight: Improvement Needed`, and Key Takeaways / Action Items sections with
content — yet parseAIResponse returns an empty summary, because the first
section containing `Summary:` is the bare header and the parser strips the
header from that section and trims the rest to nothing. -/
theorem C9_duplicate_summary_header_counterexample :
    strL "Summary: Great delivery" ∈ splitOnNN badReply ∧
    strL "Summary: Great delivery" = strL "Summary:" ++ strL " Great delivery" ∧
    trimL (strL " Great delivery") ≠ [] ∧
    (∃ s ∈ splitOnNN badReply,
      startsWithL (strL "Insight: Improvement Needed") s = true) ∧
    strL "Key Takeaways:\n- Listen" ∈ splitOnNN badReply ∧
    strL "Action Items:\n- Follow up" ∈ splitOnNN badReply ∧
    (AIInsightsService.parseAIResponse badReply).summary = [] := by
  decide

/-- C9 (amended): for every reply whose first `Summary:`-containing section
is `Summary:` followed by text that is non-blank after trimming, whose
sections include one starting `Insight: Improvement Needed`, and whose first
`Key Takeaways:`-containing and `Action Items:`-containing sections each
consist of that header followed by at least one non-blank line,
generateCallInsights' parser returns a non-empty summary, at least one
insights entry with type `improvement`, and non-empty keyTakeaways and
actionItems arrays. -/
theorem C9_structured_reply_yields_fields
    (reply X Y Z s rest : List Char)
    (hsum : (splitOnNN reply).find? (fun t => containsL t (strL "Summary:")) =
      some (strL "Summary:" ++ X))
    (hX : trimL X ≠ [])
    (hins : s ∈ splitOnNN reply)
    (hs : s = strL "Insight: Improvement Needed" ++ rest)
    (hkt : (splitOnNN reply).find? (fun t => containsL t (strL "Key Takeaways:")) =
      some (strL "Key Takeaways:" ++ Y))
    (hY : ∃ line ∈ splitOnChar '\n' Y, trimL line ≠ [])
    (hai : (splitOnNN reply).find? (fun t => containsL t (strL "Action Items:")) =
      some (strL "Action Items:" ++ Z))
    (hZ : ∃ line ∈ splitOnChar '\n' Z, trimL line ≠ []) :
    (AIInsightsService.parseAIResponse reply).summary ≠ [] ∧
    (∃ i ∈ (AIInsightsService.parseAIResponse reply).insights,
      i.type = AIInsightsService.InsightType.improvement) ∧
    (AIInsightsService.parseAIResponse reply).keyTakeaways ≠ [] ∧
    (AIInsightsService.parseAIResponse reply).actionItems ≠ [] := by
  refine ⟨?_, ?_, ?_, ?_⟩
  · show AIInsightsService.extractSummary (splitOnNN reply) ≠ []
    simp only [AIInsightsService.extractSummary, hsum]
    rw [replaceFirstL_self_append]
    exact hX
  · show ∃ i ∈ AIInsightsService.extractInsights (splitOnNN reply),
      i.type = AIInsightsService.InsightType.improvement
    have hsplit : strL "Insight: Improvement Needed" =
        strL "Insight:" ++ strL " Improvement Needed" := by decide
    have hpred : containsL s (strL "Insight:") = true := by
      rw [hs, hsplit, List.append_assoc]
      exact containsL_of_startsWithL (startsWithL_self_append _ _)
    have htitle : (splitOnChar '\n' s).headD [] =
        strL "Insight: Improvement Needed" ++
          rest.takeWhile (fun c => !(c == '\n')) := by
      rw [hs, headD_splitOnChar]
      exact takeWhile_append_of_all (by decide) rest
    have hlow : containsL (toLowerL ((splitOnChar '\n' s).headD []))
        (strL "improve") = true := by
      rw [htitle]
      unfold toLowerL
      rw [List.map_append]
      exact containsL_append_left (by decide) _
    have htype : AIInsightsService.determineInsightType
        ((splitOnChar '\n' s).headD []) =
        AIInsightsService.InsightType.improvement := by
      unfold AIInsightsService.determineInsightType
      rw [hlow]
      rfl
    unfold AIInsightsService.extractInsights
    refine ⟨_, List.mem_map.mpr ⟨s, List.mem_filter.mpr ⟨hins, hpred⟩, rfl⟩, ?_⟩
    exact htype
  · show AIInsightsService.extractKeyTakeaways (splitOnNN reply) ≠ []
    simp only [AIInsightsService.extractKeyTakeaways, hkt]
    rw [replaceFirstL_self_append]
    obtain ⟨line, hmem, hne⟩ := hY
    have hie : (trimL line).isEmpty = false := by
      cases h : trimL line with
      | nil => exact absurd h hne
      | cons a b => rfl
    apply List.ne_nil_of_mem (a := trimL line)
    refine List.mem_filter.mpr ⟨List.mem_map.mpr ⟨line, hmem, rfl⟩, ?_⟩
    simp [hie]
  · show AIInsightsService.extractActionItems (splitOnNN reply) ≠ []
    simp only [AIInsightsService.extractActionItems, hai]
    rw [replaceFirstL_self_append]
    obtain ⟨line, hmem, hne⟩ := hZ
    have hie : (trimL line).isEmpty = false := by
      cases h : trimL line with
      | nil => exact absurd h hne
      | cons a b => rfl
    apply List.ne_nil_of_mem (a := trimL line)
    refine List.mem_filter.mpr ⟨List.mem_map.mpr ⟨line, hmem, rfl⟩, ?_⟩
    simp [hie]

theorem C9_structured_reply_witness :
    (AIInsightsService.parseAIResponse goodReply).summary ≠ [] ∧
    (∃ i ∈ (AIInsightsService.parseAIResponse goodReply).insights,
      i.type = AIInsightsService.InsightType.improvement) ∧
    (AIInsightsService.parseAIResponse goodReply).keyTakeaways ≠ [] ∧
    (AIInsightsService.parseAIResponse goodReply).actionItems ≠ [] :=
  C9_structured_reply_yields_fields goodReply
    (strL " Good call") (strL "\n- Listen more") (strL "\n- Follow up")
    (strL "Insight: Improvement Needed on pacing\nSlow down")
    (strL " on pacing\nSlow down")
    (by decide) (by decide) (by decide) (by decide)
    (by decide) (by decide) (by decide) (by decide)

/-- C10: the insights reply parser is total — for every input string,
parseAIResponse returns all four fields, with a missing `Summary:` section
yielding the empty string, missing `Insight:` sections an empty insights
array, and missing `Key Takeaways:` / `Action Items:` sections empty arrays;
every extracted insight's type is one of improvement, success, trend,
anomaly, and determineInsightType defaults to anomaly when no keyword
matches. -/
theorem C10_parser_total_with_defaults (reply : List Char) :
    ((∀ s ∈ splitOnNN reply, containsL s (strL "Summary:") = false) →
      (AIInsightsService.parseAIResponse reply).summary = []) ∧
    ((∀ s ∈ splitOnNN reply, containsL s (strL "Insight:") = false) →
      (AIInsightsService.parseAIResponse reply).insights = []) ∧
    ((∀ s ∈ splitOnNN reply, containsL s (strL "Key Takeaways:") = false) →
      (AIInsightsService.parseAIResponse reply).keyTakeaways = []) ∧
    ((∀ s ∈ splitOnNN reply, containsL s (strL "Action Items:") = false) →
      (AIInsightsService.parseAIResponse reply).actionItems = []) ∧
    (∀ i ∈ (AIInsightsService.parseAIResponse reply).insights,
      i.type = AIInsightsService.InsightType.improvement ∨
      i.type = AIInsightsService.InsightType.success ∨
      i.type = AIInsightsService.InsightType.trend ∨
      i.type = AIInsightsService.InsightType.anomaly) ∧
    (∀ title : List Char,
      containsL (toLowerL title) (strL "improve") = false →
      containsL (toLowerL title) (strL "success") = false →
      containsL (toLowerL title) (strL "trend") = false →
      AIInsightsService.determineInsightType title =
        AIInsightsService.InsightType.anomaly) := by
  refine ⟨?_, ?_, ?_, ?_, ?_, ?_⟩
  · intro h
    show AIInsightsService.extractSummary (splitOnNN reply) = []
    have hnone : (splitOnNN reply).find?
        (fun s => containsL s (strL "Summary:")) = none :=
      List.find?_eq_none.mpr (fun x hx => by simp [h x hx])
    simp only [AIInsightsService.extractSummary, hnone]
  · intro h
    show AIInsightsService.extractInsights (splitOnNN reply) = []
    have hnil : (splitOnNN reply).filter
        (fun s => containsL s (strL "Insight:")) = [] :=
      List.filter_eq_nil_iff.mpr (fun a ha => by simp [h a ha])
    simp only [AIInsightsService.extractInsights, hnil, List.map_nil]
  · intro h
    show AIInsightsService.extractKeyTakeaways (splitOnNN reply) = []
    have hnone : (splitOnNN reply).find?
        (fun s => containsL s (strL "Key Takeaways:")) = none :=
      List.find?_eq_none.mpr (fun x hx => by simp [h x hx])
    simp only [AIInsightsService.extractKeyTakeaways, hnone]
  · intro h
    show AIInsightsService.extractActionItems (splitOnNN reply) = []
    have hnone : (splitOnNN reply).find?
        (fun s => containsL s (strL "Action Items:")) = none :=
      List.find?_eq_none.mpr (fun x hx => by simp [h x hx])
    simp only [AIInsightsService.extractActionItems, hnone]
  · intro i _
    rcases i with ⟨t, ti, d, cf, m, rc⟩
    cases t
    · exact Or.inl rfl
    · exact Or.inr (Or.inl rfl)
    · exact Or.inr (Or.inr (Or.inl rfl))
    · exact Or.inr (Or.inr (Or.inr rfl))
  · intro title h1 h2 h3
    simp [AIInsightsService.determineInsightType, h1, h2, h3]

theorem C10_parser_total_witness :
    (AIInsightsService.parseAIResponse (strL "hello")).summary = [] ∧
    (AIInsightsService.parseAIResponse (strL "hello")).insights = [] ∧
    (AIInsightsService.parseAIResponse (strL "hello")).keyTakeaways = [] ∧
    (AIInsightsService.parseAIResponse (strL "hello")).actionItems = [] ∧
    AIInsightsService.determineInsightType (strL "hello") =
      AIInsightsService.InsightType.anomaly :=
  ⟨(C10_parser_total_with_defaults (strL "hello")).1 (by decide),
   (C10_parser_total_with_defaults (strL "hello")).2.1 (by decide),
   (C10_parser_total_with_defaults (strL "hello")).2.2.1 (by decide),
   (C10_parser_total_with_defaults (strL "hello")).2.2.2.1 (by decide),
   (C10_parser_total_with_defaults (strL "hello")).2.2.2.2.2 (strL "hello")
     (by decide) (by decide) (by decide)⟩
